import Mathlib

/-!
Verification of the artifacts-builder dashboard slice: the MCP UI component
schema (`src/types/mcp-schema.ts`), the component renderer
(`src/components/renderer.tsx`), and the reactive RAG store
(Zustand store in the same module) together with the search API route
(`src/app/api/rag/search/route.ts`).

The embedding is shallow: each TypeScript function relevant to the claims is
translated into an executable Lean definition, JavaScript objects are modelled
as association lists of string keys to a `Value` type, and the store's
asynchronous actions are modelled as pure state transformers parameterised by
the outcome of the awaited network/database call.
-/

namespace ArtifactsBuilder

/-! ## JavaScript value model

`Value` models the JavaScript runtime values that flow through the untyped
parts of the code (`Record<string, unknown>` property bags, JSON bodies,
table cell values, action params). `vUndefined` is JavaScript `undefined`,
which matters because reading an absent object key yields it. -/

inductive Value where
  | vUndefined : Value
  | vNull : Value
  | vBool : Bool → Value
  | vInt : Int → Value
  | vStr : String → Value
  | vArr : List Value → Value
  | vObj : List (String × Value) → Value
deriving Repr

/-- A JavaScript object: ordered key/value pairs (literal construction keeps
keys unique, reads take the first match). -/
abbrev JsObj := List (String × Value)

/-- Property read `o[k]`: `none` models the key being absent (JS `undefined`
via destructuring / member access). -/
def jsGet : JsObj → String → Option Value
  | [], _ => none
  | p :: rest, key => if p.1 = key then some p.2 else jsGet rest key

/-- Object spread with a trailing literal key, `{...o, k: v}`: if `k` already
occurs its entry is overwritten in place, otherwise `(k, v)` is appended. -/
def jsSpreadSet (o : JsObj) (k : String) (v : Value) : JsObj :=
  if (o.map Prod.fst).contains k then
    o.map (fun p => if p.1 = k then (k, v) else p)
  else
    o ++ [(k, v)]

/-- Is the value JS-nullish (`null` or `undefined`)? Used by `??`. -/
def nullish : Value → Bool
  | .vNull => true
  | .vUndefined => true
  | _ => false

/-- JavaScript nullish coalescing `x ?? y`. -/
def jsCoalesce (x y : Value) : Value :=
  if nullish x then y else x

/-- JavaScript `String(v)` conversion, for the values the schema carries. -/
def jsToString : Value → String
  | .vUndefined => "undefined"
  | .vNull => "null"
  | .vBool b => if b then "true" else "false"
  | .vInt n => toString n
  | .vStr s => s
  | .vArr xs => String.intercalate ","
      (xs.attach.map (fun v => if nullish v.1 then "" else jsToString v.1))
  | .vObj _ => "[object Object]"
  decreasing_by
    simp_wf
    have := List.sizeOf_lt_of_mem v.2
    omega

/-- JavaScript `x || d` on an optional string (absent and `""` are falsy). -/
def jsOrString (x : Option String) (d : String) : String :=
  match x with
  | none => d
  | some s => if s = "" then d else s

/-! ## Remote row types

From `src/lib/supabase.ts`, restricted to the columns the store actually
selects (`fetchDocuments` selects id, content, source, chunk_idx, metadata,
created_at; `fetchRegulations` selects id, content, source, article_no,
chunk_idx, created_at). -/

structure Document where
  id : String
  content : String
  source : String
  chunk_idx : Nat
  metadata : Option Value := none
  created_at : String
deriving Repr

structure Regulation where
  id : String
  content : String
  source : String
  article_no : Option String := none
  chunk_idx : Nat
  created_at : String
deriving Repr

/-! ## Reactive store state (`useRagStore` in the store module)

`searchResults` is typed `Document[]` in TypeScript but is assigned the raw
value `json.results` by `searchDocuments`, so it is modelled at the JS value
level (`Value`) to capture what the code actually stores there. -/

structure RagState where
  documents : List Document
  regulations : List Regulation
  isLoading : Bool
  isSubscribed : Bool
  error : Option String
  searchResults : Value
  lastQuery : Option String
deriving Repr

/-- The store's initial state. -/
def initialRagState : RagState :=
  { documents := []
    regulations := []
    isLoading := false
    isSubscribed := false
    error := none
    searchResults := .vArr []
    lastQuery := none }

/-- `reset()`: a single `set` with the listed fields; Zustand merges the
partial state, so every field not listed (`isSubscribed`) is untouched. -/
def reset (s : RagState) : RagState :=
  { s with
    documents := []
    regulations := []
    searchResults := .vArr []
    isLoading := false
    error := none
    lastQuery := none }

/-- `fetchDocuments`: `set({isLoading: true, error: null})`, await the read
query, then either `set({documents: data || [], isLoading: false})` or, in
the catch, `set({error: message, isLoading: false})`. The awaited query is
abstracted as its outcome: `.ok data` (with `data` possibly null) or
`.error msg` (the thrown error's message). -/
def runFetchDocuments (res : Except String (Option (List Document)))
    (s : RagState) : RagState :=
  let s1 := { s with isLoading := true, error := none }
  match res with
  | .ok data => { s1 with documents := data.getD [], isLoading := false }
  | .error msg => { s1 with error := some msg, isLoading := false }

/-- `fetchRegulations`: same shape as `fetchDocuments` over `regulations`. -/
def runFetchRegulations (res : Except String (Option (List Regulation)))
    (s : RagState) : RagState :=
  let s1 := { s with isLoading := true, error := none }
  match res with
  | .ok data => { s1 with regulations := data.getD [], isLoading := false }
  | .error msg => { s1 with error := some msg, isLoading := false }

/-- `searchDocuments(query, limit)`: `set({isLoading: true, error: null,
lastQuery: query})`; on a completed fetch it destructures `results` from the
response JSON (`const { results } = await response.json()`) and stores it as
`searchResults`; a non-ok response or network failure lands in the catch,
which sets `error` and `isLoading`. An absent `results` key destructures to
`undefined`. -/
def runSearchDocuments (query : String) (resp : Except String JsObj)
    (s : RagState) : RagState :=
  let s1 := { s with isLoading := true, error := none, lastQuery := some query }
  match resp with
  | .ok body =>
      { s1 with searchResults := (jsGet body "results").getD .vUndefined
                isLoading := false }
  | .error msg => { s1 with error := some msg, isLoading := false }

/-- The success body built by the search route's `POST`
(`src/app/api/rag/search/route.ts`):
`NextResponse.json({ success: true, data: data || [], query,
embedding_dimension: embedding.length })`. -/
def searchRouteSuccessBody (data : Option (List Value)) (query : String)
    (embeddingLength : Nat) : JsObj :=
  [ ("success", .vBool true)
  , ("data", .vArr (data.getD []))
  , ("query", .vStr query)
  , ("embedding_dimension", .vInt embeddingLength) ]

/-! ## Realtime reconciliation

The `postgres_changes` handler installed by `subscribe` for the `documents`
table: a `set` over the previous state switching on `payload.eventType`.
The handler reads `payload.new` for INSERT/UPDATE and `payload.old` for
DELETE (unchecked casts in the source), so the relevant record is passed
directly. -/
def applyDocumentsChange (eventType : String) (newDoc oldDoc : Document)
    (docs : List Document) : List Document :=
  if eventType = "INSERT" then
    newDoc :: docs
  else if eventType = "UPDATE" then
    docs.map (fun doc => if doc.id = newDoc.id then newDoc else doc)
  else if eventType = "DELETE" then
    docs.filter (fun doc => doc.id != oldDoc.id)
  else
    docs

/-! ## Subscription world

The store module keeps two module-level channel references
(`documentChannel`, `regulationChannel`) next to the store state.
`channelsCreated` counts calls to `supabase.channel(...)`, so "no second
pair of channels is created" is observable; a fresh channel is identified by
the counter value at creation time. -/

structure RealtimeWorld where
  state : RagState
  documentChannel : Option Nat
  regulationChannel : Option Nat
  channelsCreated : Nat
deriving Repr

/-- The cleanup closure returned by a subscribing `subscribe()` call:
unsubscribes both channels, nulls the module-level references, and sets
`isSubscribed` to false. -/
def storeTeardown (w : RealtimeWorld) : RealtimeWorld :=
  { w with
    documentChannel := none
    regulationChannel := none
    state := { w.state with isSubscribed := false } }

/-- `subscribe()`: if already subscribed, return immediately with an empty
cleanup (`() => {}`); otherwise create the two channels, set
`isSubscribed := true` and return the real teardown. -/
def subscribeStore (w : RealtimeWorld) :
    RealtimeWorld × (RealtimeWorld → RealtimeWorld) :=
  if w.state.isSubscribed then
    (w, fun w' => w')
  else
    ({ w with
        documentChannel := some w.channelsCreated
        regulationChannel := some (w.channelsCreated + 1)
        channelsCreated := w.channelsCreated + 2
        state := { w.state with isSubscribed := true } },
     storeTeardown)

/-- `reset()` lifted to the module level: the action's `set` only touches
store state; the module-level channel references are not mentioned by it. -/
def worldReset (w : RealtimeWorld) : RealtimeWorld :=
  { w with state := reset w.state }

/-! ## MCP UI component schema (`src/types/mcp-schema.ts`) -/

/-- `MCPUIAction`. `event` is one of `click`/`submit`/`change` in the TS
type, but components arrive as untrusted JSON, so it is kept as a string
(the renderer compares it against literals, it never narrows it). -/
structure MCPUIAction where
  event : String
  tool : String
  params : JsObj
deriving Repr

/-- `DataTableColumn`. -/
structure DataTableColumn where
  key : String
  header : String
  ctype : Option String := none
  sortable : Option Bool := none
  width : Option String := none
deriving Repr

/-- `FormField.validation`. -/
structure FieldValidation where
  min : Option Int := none
  max : Option Int := none
  pattern : Option String := none
  message : Option String := none
deriving Repr

/-- `FormField`. -/
structure FormField where
  name : String
  label : String
  ftype : String
  placeholder : Option String := none
  required : Option Bool := none
  options : Option (List (String × String)) := none
  validation : Option FieldValidation := none
deriving Repr

/-- The per-kind shapes a component's `props` bag can take once the
renderer's unchecked cast is read back at its intended type. `missingP`
stands for an absent/null `props` field on untrusted input (what the
validator's `!component.props` check catches). The parameter `α` is tied to
`MCPUIComponent` below; card contents/footers are `string | MCPUIComponent`
(`String ⊕ α`). -/
inductive CProps (α : Type) where
  | missingP
  | buttonP (text : String) (size : Option String)
  | cardP (title : String) (description : Option String)
      (content : String ⊕ α) (footer : Option (String ⊕ α))
  | dataTableP (columns : List DataTableColumn) (data : List JsObj)
      (pagination : Option Bool) (pageSize : Option Nat)
      (searchable : Option Bool) (searchColumn : Option String)
  | dialogP (title : String) (description : Option String)
      (content : α) (trigger : α)
      (confirmText : Option String) (cancelText : Option String)
  | formP (fields : List FormField) (submitText : Option String)
      (onSubmit : Option MCPUIAction)
  | inputP (placeholder : Option String) (itype : Option String)
      (value : Option String)
  | chartP (ctype : String) (cdata : List JsObj) (xKey : String)
      (yKey : String) (title : Option String)
  | alertP (title : String) (description : Option String)
      (avariant : Option String)
  | badgeP (text : String) (bvariant : Option String)
  | toastP (title : String) (description : Option String)
      (tvariant : Option String)
deriving Repr

/-- `MCPUIComponent`: `type` (the kind, an arbitrary string on untrusted
input), optional `variant`, the `props` bag, optional `children`, optional
`actions`. -/
inductive MCPUIComponent where
  | mk (ctype : String) (variant : Option String)
      (props : CProps MCPUIComponent)
      (children : Option (List MCPUIComponent))
      (actions : Option (List MCPUIAction))
deriving Repr

namespace MCPUIComponent

def ctype : MCPUIComponent → String
  | .mk t _ _ _ _ => t

def variant : MCPUIComponent → Option String
  | .mk _ v _ _ _ => v

def props : MCPUIComponent → CProps MCPUIComponent
  | .mk _ _ p _ _ => p

def children : MCPUIComponent → Option (List MCPUIComponent)
  | .mk _ _ _ c _ => c

def actions : MCPUIComponent → Option (List MCPUIAction)
  | .mk _ _ _ _ a => a

end MCPUIComponent

/-- The `options` argument of `createMCPComponent`. -/
structure ComponentOptions where
  variant : Option String := none
  children : Option (List MCPUIComponent) := none
  actions : Option (List MCPUIAction) := none

/-- `createMCPComponent(type, props, options?)`. -/
def createMCPComponent (ctype : String) (props : CProps MCPUIComponent)
    (options : Option ComponentOptions) : MCPUIComponent :=
  .mk ctype (options.bind (·.variant)) props (options.bind (·.children))
    (options.bind (·.actions))

/-- The `options` argument of `createDataTable` (`Partial<DataTableProps>`,
restricted to the fields the factory reads). -/
structure DataTableOptions where
  pagination : Option Bool := none
  pageSize : Option Nat := none
  searchable : Option Bool := none
  searchColumn : Option String := none

/-- `createDataTable(columns, data, options?)`: defaults pagination to
`true`, pageSize to `10`, searchable to `false` via `??`. -/
def createDataTable (columns : List DataTableColumn) (data : List JsObj)
    (options : Option DataTableOptions) : MCPUIComponent :=
  createMCPComponent "data-table"
    (.dataTableP columns data
      (some ((options.bind (·.pagination)).getD true))
      (some ((options.bind (·.pageSize)).getD 10))
      (some ((options.bind (·.searchable)).getD false))
      (options.bind (·.searchColumn)))
    none

/-- The `options` argument of `createCard` (`Partial<CardProps>`, restricted
to the fields the factory reads). -/
structure CardOptions where
  description : Option String := none
  footer : Option (String ⊕ MCPUIComponent) := none

/-- `createCard(title, content, options?)`. -/
def createCard (title : String) (content : String ⊕ MCPUIComponent)
    (options : Option CardOptions) : MCPUIComponent :=
  createMCPComponent "card"
    (.cardP title (options.bind (·.description)) content
      (options.bind (·.footer)))
    none

/-- The validator's `validTypes` list, in source order. -/
def validTypes : List String :=
  ["button", "card", "data-table", "dialog", "form", "input", "chart",
   "alert", "badge", "toast"]

/-- `!component.props`: only a null/undefined props bag is falsy (an empty
object is truthy in JavaScript). -/
def propsPresent : CProps MCPUIComponent → Bool
  | .missingP => false
  | _ => true

/-- The error list accumulated by `validateMCPComponent`, in push order:
the kind check, the props-presence check, then each child's errors
depth-first left-to-right. -/
def validateErrors (c : MCPUIComponent) : List String :=
  match c with
  | .mk ty _ props children _ =>
    (if validTypes.contains ty then [] else ["無效的組件類型: " ++ ty])
    ++ (if propsPresent props then [] else ["缺少 props"])
    ++ (match children with
        | some cs => (cs.attach.map (fun ch => validateErrors ch.1)).flatten
        | none => [])
  decreasing_by
    simp_wf
    have := List.sizeOf_lt_of_mem ch.2
    omega

/-- `validateMCPComponent(component)`: returns
`{ valid: errors.length === 0, errors }`. -/
def validateMCPComponent (c : MCPUIComponent) : Bool × List String :=
  let errors := validateErrors c
  (errors.length == 0, errors)

/-! ## Component renderer (`src/components/renderer.tsx`) -/

/-- The shape of the output produced by the renderer, one constructor per
concrete rendering the source can emit. `unknownPlaceholder` is the
`default` branch's red `未知組件類型: X` div; `textR` is the `<p>` emitted
for a string-valued card content/footer. -/
inductive Rendered where
  | unknownPlaceholder (typeName : String)
  | textR (s : String)
  | buttonR (bvariant : String) (size : Option String) (label : String)
  | cardR (title : String) (description : Option String)
      (content : Rendered) (footer : Option Rendered)
  | dataTableR (headers : List String) (rows : List (List String))
  | dialogR (trigger : Rendered) (title : String)
      (description : Option String) (content : Rendered)
  | inputR (itype : String) (placeholder : Option String)
      (value : Option String)
  | formR (fields : List FormField) (submitLabel : String)
deriving Repr

/-- One `MCPDataTable` cell: `String(row[col.key] ?? '')`. -/
def renderCell (row : JsObj) (key : String) : String :=
  jsToString (jsCoalesce ((jsGet row key).getD .vUndefined) (.vStr ""))

/-- `MCPButton`: reads `text`/`size` from the cast props,
`component.variant || 'default'`. A props bag that does not match the
branch's unchecked cast is modelled as `Except.error` (the renderer may
then throw; the source relies on validation having run first). -/
def renderButtonC (variant : Option String) (props : CProps MCPUIComponent) :
    Except String Rendered :=
  match props with
  | .buttonP text size => .ok (.buttonR (jsOrString variant "default") size text)
  | _ => .error "MCPButton: props do not match ButtonProps"

/-- `MCPDataTable`: one header per column, one row per data entry, one cell
per column per row, each `String(row[col.key] ?? '')`. -/
def renderDataTableC (props : CProps MCPUIComponent) : Except String Rendered :=
  match props with
  | .dataTableP columns data _ _ _ _ =>
    .ok (.dataTableR (columns.map (·.header))
      (data.map (fun row => columns.map (fun col => renderCell row col.key))))
  | _ => .error "MCPDataTable: props do not match DataTableProps"

/-- `MCPInput`: `props.type || 'text'`, placeholder, defaultValue. -/
def renderInputC (props : CProps MCPUIComponent) : Except String Rendered :=
  match props with
  | .inputP placeholder itype value =>
      .ok (.inputR (jsOrString itype "text") placeholder value)
  | _ => .error "MCPInput: props do not match InputProps"

/-- `MCPForm` (static part): one labelled input per field in order, submit
button labelled `props.submitText || '送出'`. -/
def renderFormC (props : CProps MCPUIComponent) : Except String Rendered :=
  match props with
  | .formP fields submitText _ => .ok (.formR fields (jsOrString submitText "送出"))
  | _ => .error "MCPForm: props do not match FormProps"

mutual

/-- `MCPRenderer`: the `switch (component.type)` dispatch. A JavaScript
`switch` compares the scrutinee against each case label in order, hence the
equality chain. The `default` branch renders the visible placeholder for
any unrecognized `type`. -/
def render (c : MCPUIComponent) : Except String Rendered :=
  match c with
  | .mk ty variant props _ _ =>
    if ty = "button" then renderButtonC variant props
    else if ty = "card" then renderCardC props
    else if ty = "data-table" then renderDataTableC props
    else if ty = "dialog" then renderDialogC props
    else if ty = "input" then renderInputC props
    else if ty = "form" then renderFormC props
    else .ok (.unknownPlaceholder ty)

/-- `MCPCard`: title/description header, content (string or nested
component), optional footer (string or nested component). -/
def renderCardC (props : CProps MCPUIComponent) : Except String Rendered :=
  match props with
  | .cardP title description content footer =>
    match renderStrOrComp content with
    | .error e => .error e
    | .ok contentR =>
      match renderCardFooter footer with
      | .error e => .error e
      | .ok footerR => .ok (.cardR title description contentR footerR)
  | _ => .error "MCPCard: props do not match CardProps"

/-- The card's optional footer: absent renders nothing. -/
def renderCardFooter (footer : Option (String ⊕ MCPUIComponent)) :
    Except String (Option Rendered) :=
  match footer with
  | none => .ok none
  | some f =>
    match renderStrOrComp f with
    | .error e => .error e
    | .ok r => .ok (some r)

/-- `MCPDialog`: the trigger and the content both recurse through
`MCPRenderer`. -/
def renderDialogC (props : CProps MCPUIComponent) : Except String Rendered :=
  match props with
  | .dialogP title description content trigger _ _ =>
    match render trigger with
    | .error e => .error e
    | .ok triggerR =>
      match render content with
      | .error e => .error e
      | .ok contentR => .ok (.dialogR triggerR title description contentR)
  | _ => .error "MCPDialog: props do not match DialogProps"

/-- A card's `content`/`footer` value: a string renders as `<p>{s}</p>`, a
nested component recurses through `MCPRenderer` with the same callback. -/
def renderStrOrComp (sc : String ⊕ MCPUIComponent) : Except String Rendered :=
  match sc with
  | .inl s => .ok (.textR s)
  | .inr comp => render comp

end

/-- The kinds that have a dedicated `case` in the renderer's switch. -/
def handledKind (ty : String) : Bool :=
  ty == "button" || ty == "card" || ty == "data-table" || ty == "dialog" ||
  ty == "input" || ty == "form"

mutual

/-- Structural validity of a component tree with respect to the shapes the
renderer's casts assume: a component whose kind has a dedicated renderer
must carry that kind's props shape (recursively inside card and dialog
nesting); any other kind renders the placeholder without reading its props,
so nothing is required of it. -/
def structOk (c : MCPUIComponent) : Bool :=
  match c with
  | .mk ty _ props _ _ =>
    if ty = "button" then
      match props with
      | .buttonP _ _ => true
      | _ => false
    else if ty = "card" then
      match props with
      | .cardP _ _ content footer =>
        strOrCompOk content &&
          (match footer with
           | none => true
           | some f => strOrCompOk f)
      | _ => false
    else if ty = "data-table" then
      match props with
      | .dataTableP _ _ _ _ _ _ => true
      | _ => false
    else if ty = "dialog" then
      match props with
      | .dialogP _ _ content trigger _ _ => structOk content && structOk trigger
      | _ => false
    else if ty = "input" then
      match props with
      | .inputP _ _ _ => true
      | _ => false
    else if ty = "form" then
      match props with
      | .formP _ _ _ => true
      | _ => false
    else true

def strOrCompOk (sc : String ⊕ MCPUIComponent) : Bool :=
  match sc with
  | .inl _ => true
  | .inr comp => structOk comp

end

/-- The kind of output a `Rendered` value is: which renderer produced it. -/
def renderedKind : Rendered → String
  | .unknownPlaceholder _ => "unknown"
  | .textR _ => "text"
  | .buttonR _ _ _ => "button"
  | .cardR _ _ _ _ => "card"
  | .dataTableR _ _ => "data-table"
  | .dialogR _ _ _ _ => "dialog"
  | .inputR _ _ _ => "input"
  | .formR _ _ => "form"

/-! ## Form submission (`MCPForm.handleSubmit`) -/

/-- The observable outcome of firing the form's submit event once:
whether `e.preventDefault()` ran, and the list of `onAction` invocations
(tool name with the params object passed). -/
structure SubmitOutcome where
  defaultPrevented : Bool
  calls : List (String × JsObj)
deriving Repr

/-- `handleSubmit`: prevents default, collects the live field values
(`Object.fromEntries(new FormData(form).entries())`, strings keyed by field
name), and if `props.onSubmit` is set invokes the callback once with
`onSubmit.tool` and `{...onSubmit.params, formData: data}`. -/
def mcpFormHandleSubmit (onSubmit : Option MCPUIAction)
    (formValues : List (String × String)) : SubmitOutcome :=
  let data : JsObj := formValues.map (fun p => (p.1, Value.vStr p.2))
  { defaultPrevented := true
    calls :=
      match onSubmit with
      | some a => [(a.tool, jsSpreadSet a.params "formData" (.vObj data))]
      | none => [] }

/-! ## Helper lemmas about the JS object model -/

theorem jsGet_append (a b : JsObj) (key : String) :
    jsGet (a ++ b) key =
      match jsGet a key with
      | some v => some v
      | none => jsGet b key := by
  induction a with
  | nil => simp [jsGet]
  | cons p rest ih =>
      by_cases h : p.1 = key
      · simp [jsGet, h]
      · simp [jsGet, h, ih]

theorem jsGet_eq_none_of_not_contains (o : JsObj) (k : String)
    (h : (o.map Prod.fst).contains k = false) : jsGet o k = none := by
  induction o with
  | nil => simp [jsGet]
  | cons p rest ih =>
      simp only [List.map_cons, List.contains_cons, Bool.or_eq_false_iff,
        beq_eq_false_iff_ne, ne_eq] at h
      have hp : ¬p.1 = k := fun hp => h.1 hp.symm
      simp [jsGet, hp, ih h.2]

theorem jsGet_map_overwrite_self (o : JsObj) (k : String) (v : Value)
    (hc : (o.map Prod.fst).contains k = true) :
    jsGet (o.map (fun p => if p.1 = k then (k, v) else p)) k = some v := by
  induction o with
  | nil => simp at hc
  | cons p rest ih =>
      by_cases hp : p.1 = k
      · simp [jsGet, hp]
      · simp only [List.map_cons, List.contains_cons] at hc
        have hrest : (rest.map Prod.fst).contains k = true := by
          rcases Bool.or_eq_true_iff.mp hc with h' | h'
          · exact absurd (beq_iff_eq.mp h').symm hp
          · exact h'
        simp [jsGet, hp, ih hrest]

theorem jsGet_map_overwrite_ne (o : JsObj) (k : String) (v : Value)
    (k' : String) (h : k' ≠ k) :
    jsGet (o.map (fun p => if p.1 = k then (k, v) else p)) k' = jsGet o k' := by
  induction o with
  | nil => simp [jsGet]
  | cons p rest ih =>
      have hkk : ¬k = k' := fun he => h he.symm
      by_cases hp : p.1 = k
      · simp [jsGet, hp, hkk, ih]
      · simp [jsGet, hp, ih]

theorem jsGet_spreadSet_self (o : JsObj) (k : String) (v : Value) :
    jsGet (jsSpreadSet o k v) k = some v := by
  unfold jsSpreadSet
  by_cases hc : (o.map Prod.fst).contains k = true
  · rw [if_pos hc]
    exact jsGet_map_overwrite_self o k v hc
  · rw [if_neg hc, jsGet_append]
    rw [jsGet_eq_none_of_not_contains o k (Bool.eq_false_iff.mpr hc)]
    simp [jsGet]

theorem jsGet_spreadSet_ne (o : JsObj) (k : String) (v : Value)
    (k' : String) (h : k' ≠ k) :
    jsGet (jsSpreadSet o k v) k' = jsGet o k' := by
  unfold jsSpreadSet
  by_cases hc : (o.map Prod.fst).contains k = true
  · rw [if_pos hc]
    exact jsGet_map_overwrite_ne o k v k' h
  · rw [if_neg hc, jsGet_append]
    have hkk : ¬k = k' := fun he => h he.symm
    have h1 : jsGet [(k, v)] k' = none := by simp [jsGet, hkk]
    cases hg : jsGet o k' <;> simp [h1]

/-! ## Helper lemmas about the renderer -/

theorem render_isOk_aux : ∀ (n : Nat) (c : MCPUIComponent),
    sizeOf c ≤ n → structOk c = true → (render c).isOk = true := by
  intro n
  induction n with
  | zero =>
      intro c hle _
      exfalso
      obtain ⟨ty, variant, props, children, actions⟩ := c
      simp at hle
  | succ n ih =>
      intro c hle hok
      obtain ⟨ty, variant, props, children, actions⟩ := c
      rw [structOk.eq_def] at hok
      by_cases h1 : ty = "button"
      · subst h1
        simp only [String.reduceEq, reduceIte] at hok
        cases props <;> simp_all [render, renderButtonC, Except.isOk, Except.toBool]
      · by_cases h2 : ty = "card"
        · subst h2
          simp only [String.reduceEq, reduceIte] at hok
          cases props with
          | cardP title description content footer =>
              simp only [Bool.and_eq_true] at hok
              have hc : (renderStrOrComp content).isOk = true := by
                cases content with
                | inl s => simp [renderStrOrComp, Except.isOk, Except.toBool]
                | inr comp =>
                    have hsz : sizeOf comp ≤ n := by
                      simp at hle; omega
                    have hso : structOk comp = true := by
                      have := hok.1
                      rw [strOrCompOk.eq_def] at this
                      simpa using this
                    simpa [renderStrOrComp] using ih comp hsz hso
              have hf : (renderCardFooter footer).isOk = true := by
                cases footer with
                | none => simp [renderCardFooter, Except.isOk, Except.toBool]
                | some f =>
                    have hfs : (renderStrOrComp f).isOk = true := by
                      cases f with
                      | inl s => simp [renderStrOrComp, Except.isOk, Except.toBool]
                      | inr comp =>
                          have hsz : sizeOf comp ≤ n := by
                            simp at hle; omega
                          have hso : structOk comp = true := by
                            have := hok.2
                            simp only at this
                            rw [strOrCompOk.eq_def] at this
                            simpa using this
                          simpa [renderStrOrComp] using ih comp hsz hso
                    cases hre : renderStrOrComp f with
                    | error e =>
                        rw [hre] at hfs
                        simp [Except.isOk, Except.toBool] at hfs
                    | ok r => simp [renderCardFooter, hre, Except.isOk, Except.toBool]
              cases hre : renderStrOrComp content with
              | error e =>
                  rw [hre] at hc
                  simp [Except.isOk, Except.toBool] at hc
              | ok contentR =>
                  cases hrf : renderCardFooter footer with
                  | error e =>
                      rw [hrf] at hf
                      simp [Except.isOk, Except.toBool] at hf
                  | ok footerR =>
                      simp [render, renderCardC, hre, hrf, Except.isOk, Except.toBool]
          | missingP => simp at hok
          | buttonP a b => simp at hok
          | dataTableP a b c d e f => simp at hok
          | dialogP a b c d e f => simp at hok
          | formP a b c => simp at hok
          | inputP a b c => simp at hok
          | chartP a b c d e => simp at hok
          | alertP a b c => simp at hok
          | badgeP a b => simp at hok
          | toastP a b c => simp at hok
        · by_cases h3 : ty = "data-table"
          · subst h3
            simp only [String.reduceEq, reduceIte] at hok
            cases props <;>
              simp_all [render, renderDataTableC, Except.isOk, Except.toBool]
          · by_cases h4 : ty = "dialog"
            · subst h4
              simp only [String.reduceEq, reduceIte] at hok
              cases props with
              | dialogP title description content trigger confirmText cancelText =>
                  simp only [Bool.and_eq_true] at hok
                  have hszc : sizeOf content ≤ n := by simp at hle; omega
                  have hszt : sizeOf trigger ≤ n := by simp at hle; omega
                  have hct := ih trigger hszt hok.2
                  have hcc := ih content hszc hok.1
                  cases hrt : render trigger with
                  | error e =>
                      rw [hrt] at hct
                      simp [Except.isOk, Except.toBool] at hct
                  | ok triggerR =>
                      cases hrc : render content with
                      | error e =>
                          rw [hrc] at hcc
                          simp [Except.isOk, Except.toBool] at hcc
                      | ok contentR =>
                          simp [render, renderDialogC, hrt, hrc, Except.isOk,
                            Except.toBool]
              | missingP => simp at hok
              | buttonP a b => simp at hok
              | cardP a b c d => simp at hok
              | dataTableP a b c d e f => simp at hok
              | formP a b c => simp at hok
              | inputP a b c => simp at hok
              | chartP a b c d e => simp at hok
              | alertP a b c => simp at hok
              | badgeP a b => simp at hok
              | toastP a b c => simp at hok
            · by_cases h5 : ty = "input"
              · subst h5
                simp only [String.reduceEq, reduceIte] at hok
                cases props <;>
                  simp_all [render, renderInputC, Except.isOk, Except.toBool]
              · by_cases h6 : ty = "form"
                · subst h6
                  simp only [String.reduceEq, reduceIte] at hok
                  cases props <;>
                    simp_all [render, renderFormC, Except.isOk, Except.toBool]
                · simp [render, h1, h2, h3, h4, h5, h6, Except.isOk, Except.toBool]

theorem render_isOk (c : MCPUIComponent) (h : structOk c = true) :
    (render c).isOk = true :=
  render_isOk_aux (sizeOf c) c le_rfl h

theorem renderCardC_kind (title : String) (description : Option String)
    (content : String ⊕ MCPUIComponent)
    (footer : Option (String ⊕ MCPUIComponent)) (r : Rendered)
    (h : renderCardC (.cardP title description content footer) = .ok r) :
    renderedKind r = "card" := by
  cases hre : renderStrOrComp content with
  | error e => simp [renderCardC, hre] at h
  | ok contentR =>
      cases hrf : renderCardFooter footer with
      | error e => simp [renderCardC, hre, hrf] at h
      | ok footerR =>
          simp [renderCardC, hre, hrf] at h
          subst h
          simp [renderedKind]

theorem renderDialogC_kind (title : String) (description : Option String)
    (content trigger : MCPUIComponent)
    (confirmText cancelText : Option String) (r : Rendered)
    (h : renderDialogC (.dialogP title description content trigger
          confirmText cancelText) = .ok r) :
    renderedKind r = "dialog" := by
  cases hrt : render trigger with
  | error e => simp [renderDialogC, hrt] at h
  | ok triggerR =>
      cases hrc : render content with
      | error e => simp [renderDialogC, hrt, hrc] at h
      | ok contentR =>
          simp [renderDialogC, hrt, hrc] at h
          subst h
          simp [renderedKind]

/-! ## Concrete fixtures used by witnesses and the counterexample -/

/-- A document with id "1" and content "a" (the spec's running example). -/
def doc1 : Document :=
  { id := "1", content := "a", source := "s", chunk_idx := 0, created_at := "t1" }

/-- A document with id "2", not present in the example list. -/
def doc2 : Document :=
  { id := "2", content := "b", source := "s", chunk_idx := 0, created_at := "t2" }

/-- A document with id "3", inserted by the example. -/
def doc3 : Document :=
  { id := "3", content := "c", source := "s", chunk_idx := 0, created_at := "t3" }

/-- A world that is already subscribed. -/
def subscribedWorld : RealtimeWorld :=
  { state := { initialRagState with isSubscribed := true }
    documentChannel := some 0
    regulationChannel := some 1
    channelsCreated := 2 }

/-! ## Claims -/

/-- C1: the documents `postgres_changes` handler prepends on an insert
event, replaces the matching entry in place on an update event (position
and length preserved, and a no-op when no entry has the changed id — the
update path never inserts), removes the matching entry on a delete event,
and leaves the list unchanged for any other event kind. -/
theorem realtime_documents_reconciliation :
    (∀ (n o : Document) (docs : List Document),
       applyDocumentsChange "INSERT" n o docs = n :: docs) ∧
    (∀ (n o : Document) (docs : List Document),
       (applyDocumentsChange "UPDATE" n o docs).length = docs.length ∧
       (∀ i : Nat, (applyDocumentsChange "UPDATE" n o docs)[i]? =
          (docs[i]?).map (fun d => if d.id = n.id then n else d)) ∧
       ((∀ d ∈ docs, d.id ≠ n.id) →
          applyDocumentsChange "UPDATE" n o docs = docs)) ∧
    (∀ (n o : Document) (docs : List Document),
       (applyDocumentsChange "DELETE" n o docs).Sublist docs ∧
       (∀ d, d ∈ applyDocumentsChange "DELETE" n o docs ↔
          (d ∈ docs ∧ d.id ≠ o.id))) ∧
    (∀ (e : String) (n o : Document) (docs : List Document),
       e ≠ "INSERT" → e ≠ "UPDATE" → e ≠ "DELETE" →
       applyDocumentsChange e n o docs = docs) := by
  refine ⟨?_, ?_, ?_, ?_⟩
  · intro n o docs
    simp [applyDocumentsChange]
  · intro n o docs
    refine ⟨?_, ?_, ?_⟩
    · simp [applyDocumentsChange]
    · intro i
      simp [applyDocumentsChange]
    · intro h
      have h2 : docs.map (fun d => if d.id = n.id then n else d) = docs.map id :=
        List.map_congr_left (fun d hd => by simp [h d hd])
      simp [applyDocumentsChange, h2]
  · intro n o docs
    constructor
    · simp only [applyDocumentsChange, String.reduceEq, reduceIte]
      exact List.filter_sublist docs
    · intro d
      simp [applyDocumentsChange, List.mem_filter]
  · intro e n o docs h1 h2 h3
    simp [applyDocumentsChange, h1, h2, h3]

/-- Witness for C1, on the spec's example: an update for the absent id "2"
is a no-op on `[doc1]`, and an unknown event kind is a no-op. -/
theorem realtime_documents_reconciliation_witness :
    applyDocumentsChange "UPDATE" doc2 doc2 [doc1] = [doc1] ∧
    applyDocumentsChange "SYNC" doc2 doc2 [doc1] = [doc1] :=
  ⟨(realtime_documents_reconciliation.2.1 doc2 doc2 [doc1]).2.2
      (by intro d hd; simp at hd; subst hd; decide),
   realtime_documents_reconciliation.2.2.2 "SYNC" doc2 doc2 [doc1]
      (by decide) (by decide) (by decide)⟩

/-- C2: calling `subscribe()` while `isSubscribed` is already true leaves
the whole world (state, both channel references, and the channel-creation
count) unchanged and returns a teardown that is the identity. -/
theorem subscribe_idempotent (w : RealtimeWorld)
    (h : w.state.isSubscribed = true) :
    (subscribeStore w).1 = w ∧
    (∀ v, (subscribeStore w).2 v = v) ∧
    (subscribeStore w).1.state.isSubscribed = true ∧
    (subscribeStore w).1.documentChannel = w.documentChannel ∧
    (subscribeStore w).1.regulationChannel = w.regulationChannel ∧
    (subscribeStore w).1.channelsCreated = w.channelsCreated := by
  simp [subscribeStore, h]

/-- Witness for C2 at a concrete already-subscribed world. -/
theorem subscribe_idempotent_witness :
    subscribedWorld.state.isSubscribed = true ∧
    (subscribeStore subscribedWorld).1 = subscribedWorld ∧
    (subscribeStore subscribedWorld).2 subscribedWorld = subscribedWorld :=
  ⟨rfl, (subscribe_idempotent subscribedWorld rfl).1,
    (subscribe_idempotent subscribedWorld rfl).2.1 subscribedWorld⟩

/-- C3: a failed read query makes `fetchDocuments` (resp. `fetchRegulations`)
end with `error` set to the failure message and `isLoading = false`, leaving
the corresponding list exactly as it was before the fetch. -/
theorem fetch_failure_preserves_lists :
    (∀ (msg : String) (s : RagState),
       (runFetchDocuments (.error msg) s).error = some msg ∧
       (runFetchDocuments (.error msg) s).isLoading = false ∧
       (runFetchDocuments (.error msg) s).documents = s.documents) ∧
    (∀ (msg : String) (s : RagState),
       (runFetchRegulations (.error msg) s).error = some msg ∧
       (runFetchRegulations (.error msg) s).isLoading = false ∧
       (runFetchRegulations (.error msg) s).regulations = s.regulations) := by
  constructor <;> intro msg s <;>
    simp [runFetchDocuments, runFetchRegulations]

/-- C4 (evidence of the divergence): for every successful search-route
response body, the list of results sits under the `data` key, the body has
no `results` key at all, and therefore `searchDocuments` ends the success
path with `searchResults` set to JavaScript `undefined` instead of the
result list. -/
theorem searchDocuments_success_sets_undefined :
    ∀ (data : Option (List Value)) (q : String) (dim : Nat) (s : RagState),
      jsGet (searchRouteSuccessBody data q dim) "data" =
        some (.vArr (data.getD [])) ∧
      jsGet (searchRouteSuccessBody data q dim) "results" = none ∧
      (runSearchDocuments q (.ok (searchRouteSuccessBody data q dim))
          s).searchResults = .vUndefined ∧
      (runSearchDocuments q (.ok (searchRouteSuccessBody data q dim))
          s).lastQuery = some q ∧
      (runSearchDocuments q (.ok (searchRouteSuccessBody data q dim))
          s).isLoading = false := by
  intro data q dim s
  refine ⟨?_, ?_, ?_, ?_, ?_⟩ <;>
    simp [searchRouteSuccessBody, jsGet, runSearchDocuments]

/-- C5: `reset()` puts every list and scalar field back to its initial
value while preserving `isSubscribed` and both module-level channel
references. -/
theorem reset_restores_initial_preserving_subscription :
    ∀ w : RealtimeWorld,
      (worldReset w).state =
        { initialRagState with isSubscribed := w.state.isSubscribed } ∧
      (worldReset w).documentChannel = w.documentChannel ∧
      (worldReset w).regulationChannel = w.regulationChannel ∧
      (worldReset w).channelsCreated = w.channelsCreated := by
  intro w
  refine ⟨?_, rfl, rfl, rfl⟩
  simp [worldReset, reset, initialRagState]

/-- A structurally valid chart component (its kind is in the closed
enumeration and its props bag has the chart shape). -/
def chartComponent : MCPUIComponent :=
  .mk "chart" none
    (.chartP "line" [[("x", .vInt 1), ("y", .vInt 2)]] "x" "y" none)
    none none

/-- A component with a kind outside the closed enumeration. -/
def unknownKindComponent : MCPUIComponent :=
  .mk "carousel" none .missingP none none

/-- A structurally valid button component. -/
def buttonComponent : MCPUIComponent :=
  .mk "button" none (.buttonP "OK" none) none none

/-- C6 counterexample: `chart` is in the closed kind enumeration, the
component is structurally valid (it even validates cleanly), yet the
renderer emits the error placeholder — the output the claim reserves for
kinds outside the enumeration — instead of a chart-specific rendering. -/
theorem chart_component_renders_placeholder :
    validTypes.contains chartComponent.ctype = true ∧
    structOk chartComponent = true ∧
    validateMCPComponent chartComponent = (true, []) ∧
    render chartComponent = .ok (.unknownPlaceholder "chart") ∧
    renderedKind (.unknownPlaceholder "chart") ≠ chartComponent.ctype := by
  refine ⟨by decide, ?_, ?_, ?_, by decide⟩
  · simp only [chartComponent]
    rw [structOk.eq_def]
    simp
  · simp only [chartComponent, validateMCPComponent]
    rw [validateErrors.eq_def]
    simp [propsPresent, validTypes]
  · simp [chartComponent, render]

/-- C6 (amended): the dispatch has kind-specific branches exactly for
button, card, data-table, dialog, input and form; every component whose
kind has no branch — including the enumeration members chart, alert, badge
and toast — renders the visible error placeholder and never throws; and
every structurally valid component renders without throwing, with a
kind-specific (non-placeholder) output whenever its kind has a branch. -/
theorem renderer_dispatch_amended :
    (∀ c : MCPUIComponent, handledKind c.ctype = false →
       render c = .ok (.unknownPlaceholder c.ctype)) ∧
    (∀ c : MCPUIComponent, structOk c = true → (render c).isOk = true) ∧
    (∀ c : MCPUIComponent, structOk c = true → handledKind c.ctype = true →
       ∃ r, render c = .ok r ∧ renderedKind r = c.ctype) := by
  refine ⟨?_, render_isOk, ?_⟩
  · intro c h
    obtain ⟨ty, variant, props, children, actions⟩ := c
    simp only [handledKind, MCPUIComponent.ctype, Bool.or_eq_false_iff,
      beq_eq_false_iff_ne, ne_eq] at h
    simp [render, MCPUIComponent.ctype, h.1.1.1.1.1, h.1.1.1.1.2, h.1.1.1.2,
      h.1.1.2, h.1.2, h.2]
  · intro c hok hh
    have hisok := render_isOk c hok
    obtain ⟨ty, variant, props, children, actions⟩ := c
    simp only [MCPUIComponent.ctype] at hh ⊢
    rw [structOk.eq_def] at hok
    by_cases h1 : ty = "button"
    · subst h1
      simp only [String.reduceEq, reduceIte] at hok
      cases props with
      | buttonP text size =>
          refine ⟨.buttonR (jsOrString variant "default") size text, ?_, ?_⟩
          · simp [render, renderButtonC]
          · simp [renderedKind]
      | missingP => simp at hok
      | cardP a b c d => simp at hok
      | dataTableP a b c d e f => simp at hok
      | dialogP a b c d e f => simp at hok
      | formP a b c => simp at hok
      | inputP a b c => simp at hok
      | chartP a b c d e => simp at hok
      | alertP a b c => simp at hok
      | badgeP a b => simp at hok
      | toastP a b c => simp at hok
    · by_cases h2 : ty = "card"
      · subst h2
        simp only [String.reduceEq, reduceIte] at hok
        cases props with
        | cardP title description content footer =>
            have hr : render (MCPUIComponent.mk "card" variant
                (.cardP title description content footer) children actions) =
                renderCardC (.cardP title description content footer) := by
              simp [render]
            rw [hr] at hisok ⊢
            cases hres : renderCardC (.cardP title description content footer) with
            | error e =>
                rw [hres] at hisok
                simp [Except.isOk, Except.toBool] at hisok
            | ok r =>
                exact ⟨r, rfl, renderCardC_kind _ _ _ _ _ hres⟩
        | missingP => simp at hok
        | buttonP a b => simp at hok
        | dataTableP a b c d e f => simp at hok
        | dialogP a b c d e f => simp at hok
        | formP a b c => simp at hok
        | inputP a b c => simp at hok
        | chartP a b c d e => simp at hok
        | alertP a b c => simp at hok
        | badgeP a b => simp at hok
        | toastP a b c => simp at hok
      · by_cases h3 : ty = "data-table"
        · subst h3
          simp only [String.reduceEq, reduceIte] at hok
          cases props with
          | dataTableP columns data pagination pageSize searchable searchColumn =>
              refine ⟨.dataTableR (columns.map (·.header))
                (data.map (fun row =>
                  columns.map (fun col => renderCell row col.key))), ?_, ?_⟩
              · simp [render, renderDataTableC]
              · simp [renderedKind]
          | missingP => simp at hok
          | buttonP a b => simp at hok
          | cardP a b c d => simp at hok
          | dialogP a b c d e f => simp at hok
          | formP a b c => simp at hok
          | inputP a b c => simp at hok
          | chartP a b c d e => simp at hok
          | alertP a b c => simp at hok
          | badgeP a b => simp at hok
          | toastP a b c => simp at hok
        · by_cases h4 : ty = "dialog"
          · subst h4
            simp only [String.reduceEq, reduceIte] at hok
            cases props with
            | dialogP title description content trigger confirmText cancelText =>
                have hr : render (MCPUIComponent.mk "dialog" variant
                    (.dialogP title description content trigger confirmText
                      cancelText) children actions) =
                    renderDialogC (.dialogP title description content trigger
                      confirmText cancelText) := by
                  simp [render]
                rw [hr] at hisok ⊢
                cases hres : renderDialogC (.dialogP title description content
                    trigger confirmText cancelText) with
                | error e =>
                    rw [hres] at hisok
                    simp [Except.isOk, Except.toBool] at hisok
                | ok r =>
                    exact ⟨r, rfl, renderDialogC_kind _ _ _ _ _ _ _ hres⟩
            | missingP => simp at hok
            | buttonP a b => simp at hok
            | cardP a b c d => simp at hok
            | dataTableP a b c d e f => simp at hok
            | formP a b c => simp at hok
            | inputP a b c => simp at hok
            | chartP a b c d e => simp at hok
            | alertP a b c => simp at hok
            | badgeP a b => simp at hok
            | toastP a b c => simp at hok
          · by_cases h5 : ty = "input"
            · subst h5
              simp only [String.reduceEq, reduceIte] at hok
              cases props with
              | inputP placeholder itype value =>
                  refine ⟨.inputR (jsOrString itype "text") placeholder value,
                    ?_, ?_⟩
                  · simp [render, renderInputC]
                  · simp [renderedKind]
              | missingP => simp at hok
              | buttonP a b => simp at hok
              | cardP a b c d => simp at hok
              | dataTableP a b c d e f => simp at hok
              | dialogP a b c d e f => simp at hok
              | formP a b c => simp at hok
              | chartP a b c d e => simp at hok
              | alertP a b c => simp at hok
              | badgeP a b => simp at hok
              | toastP a b c => simp at hok
            · by_cases h6 : ty = "form"
              · subst h6
                simp only [String.reduceEq, reduceIte] at hok
                cases props with
                | formP fields submitText onSubmit =>
                    refine ⟨.formR fields (jsOrString submitText "送出"), ?_, ?_⟩
                    · simp [render, renderFormC]
                    · simp [renderedKind]
                | missingP => simp at hok
                | buttonP a b => simp at hok
                | cardP a b c d => simp at hok
                | dataTableP a b c d e f => simp at hok
                | dialogP a b c d e f => simp at hok
                | inputP a b c => simp at hok
                | chartP a b c d e => simp at hok
                | alertP a b c => simp at hok
                | badgeP a b => simp at hok
                | toastP a b c => simp at hok
              · exfalso
                simp [handledKind, h1, h2, h3, h4, h5, h6] at hh

/-- Witness for the amended C6 theorem: a concrete unknown kind renders the
placeholder, and a concrete structurally valid button component gets a
button-specific rendering. -/
theorem renderer_dispatch_amended_witness :
    handledKind unknownKindComponent.ctype = false ∧
    render unknownKindComponent = .ok (.unknownPlaceholder "carousel") ∧
    structOk buttonComponent = true ∧
    handledKind buttonComponent.ctype = true ∧
    (∃ r, render buttonComponent = .ok r ∧
       renderedKind r = buttonComponent.ctype) := by
  have hb : structOk buttonComponent = true := by
    simp only [buttonComponent]
    rw [structOk.eq_def]
    simp
  refine ⟨by decide, ?_, hb, by decide, ?_⟩
  · simpa [unknownKindComponent, MCPUIComponent.ctype] using
      renderer_dispatch_amended.1 unknownKindComponent (by decide)
  · exact renderer_dispatch_amended.2.2 buttonComponent hb (by decide)

/-- The `onSubmit` action of the spec's form-merge example: params carry an
unrelated key `a` and a colliding `formData` key. -/
def formAction0 : MCPUIAction :=
  { event := "submit"
    tool := "saveTool"
    params := [("a", .vInt 1), ("formData", .vStr "ignored")] }

/-- C7: with an `onSubmit` action configured, submission prevents default
navigation and invokes the callback exactly once with `onSubmit.tool` and a
params object whose `formData` key always carries the live field values
(even when `onSubmit.params` itself has a `formData` key) while every other
key of `onSubmit.params` is preserved unchanged; with no `onSubmit`
configured, submission still prevents default but invokes the callback zero
times. -/
theorem form_submit_merges_formData_last :
    (∀ (a : MCPUIAction) (fvs : List (String × String)),
       (mcpFormHandleSubmit (some a) fvs).defaultPrevented = true ∧
       ∃ merged,
         (mcpFormHandleSubmit (some a) fvs).calls = [(a.tool, merged)] ∧
         jsGet merged "formData" =
           some (.vObj (fvs.map (fun p => (p.1, Value.vStr p.2)))) ∧
         (∀ k, k ≠ "formData" → jsGet merged k = jsGet a.params k)) ∧
    (∀ fvs : List (String × String),
       (mcpFormHandleSubmit none fvs).defaultPrevented = true ∧
       (mcpFormHandleSubmit none fvs).calls = []) := by
  constructor
  · intro a fvs
    refine ⟨rfl, jsSpreadSet a.params "formData"
        (.vObj (fvs.map (fun p => (p.1, Value.vStr p.2)))), ?_,
      jsGet_spreadSet_self _ _ _,
      fun k hk => jsGet_spreadSet_ne _ _ _ k hk⟩
    simp [mcpFormHandleSubmit]
  · intro fvs
    exact ⟨rfl, rfl⟩

/-- Witness for C7 at the spec's example: `onSubmit.params = {a: 1,
formData: "ignored"}` with live values `{x: "y"}` yields
`params.formData = {x: "y"}` while `a` is preserved. -/
theorem form_submit_merges_formData_last_witness :
    (mcpFormHandleSubmit (some formAction0) [("x", "y")]).defaultPrevented
        = true ∧
    ∃ merged,
      (mcpFormHandleSubmit (some formAction0) [("x", "y")]).calls =
        [("saveTool", merged)] ∧
      jsGet merged "formData" = some (.vObj [("x", .vStr "y")]) ∧
      jsGet merged "a" = jsGet formAction0.params "a" := by
  obtain ⟨hdp, merged, hcalls, hfd, hpres⟩ :=
    form_submit_merges_formData_last.1 formAction0 [("x", "y")]
  exact ⟨hdp, merged, hcalls, hfd, hpres "a" (by decide)⟩

/-- C8: rendering a `data-table` built by `createDataTable` with N columns
and M rows yields exactly M row outputs in input order, each with exactly N
cells in column order, and a cell whose row lacks the column's key renders
as the empty string. -/
theorem dataTable_factory_render_roundtrip :
    ∀ (cols : List DataTableColumn) (data : List JsObj)
      (opts : Option DataTableOptions),
      render (createDataTable cols data opts) =
        .ok (.dataTableR (cols.map DataTableColumn.header)
          (data.map (fun row => cols.map (fun col => renderCell row col.key)))) ∧
      (data.map (fun row =>
        cols.map (fun col => renderCell row col.key))).length = data.length ∧
      (∀ i : Nat,
        (data.map (fun row => cols.map (fun col => renderCell row col.key)))[i]? =
          (data[i]?).map (fun row => cols.map (fun col => renderCell row col.key))) ∧
      (∀ r ∈ data.map (fun row => cols.map (fun col => renderCell row col.key)),
        r.length = cols.length) ∧
      (∀ (row : JsObj) (key : String),
        jsGet row key = none → renderCell row key = "") := by
  intro cols data opts
  refine ⟨?_, ?_, ?_, ?_, ?_⟩
  · simp [createDataTable, createMCPComponent, render, renderDataTableC]
  · simp
  · intro i
    simp
  · intro r hr
    rcases List.mem_map.mp hr with ⟨row, _, hrow⟩
    subst hrow
    simp
  · intro row key h
    rw [renderCell, h]
    simp only [Option.getD]
    rw [jsCoalesce, jsToString.eq_def]
    simp [nullish]

/-- The columns of the C8 witness table: `id` and `name`. -/
def colsFixture : List DataTableColumn :=
  [{ key := "id", header := "ID" }, { key := "name", header := "Name" }]

/-- The single row of the C8 witness table; it lacks the `name` key. -/
def rowFixture : JsObj := [("id", .vStr "1")]

/-- Witness for C8: two columns, one row that lacks the `name` key — the
missing cell renders as `""` and the row output has exactly two cells. -/
theorem dataTable_factory_render_roundtrip_witness :
    jsGet rowFixture "name" = none ∧
    renderCell rowFixture "name" = "" ∧
    (colsFixture.map (fun col => renderCell rowFixture col.key)).length
      = colsFixture.length := by
  refine ⟨by rfl, ?_, ?_⟩
  · exact (dataTable_factory_render_roundtrip colsFixture [rowFixture]
        none).2.2.2.2 rowFixture "name" (by rfl)
  · exact (dataTable_factory_render_roundtrip colsFixture [rowFixture]
        none).2.2.2.1
      (colsFixture.map (fun col => renderCell rowFixture col.key)) (by simp)

/-- A component whose kind is outside the closed enumeration, with a props
bag present. -/
def badKindComponent : MCPUIComponent :=
  .mk "zzz" none (.inputP none none none) none none

/-- C9: a component whose kind is outside the closed enumeration gets an
error naming the offending kind in its error list, and in general the
validator's `valid` flag is true exactly when the error list is empty. -/
theorem validate_unknown_kind_and_valid_iff :
    (∀ c : MCPUIComponent, validTypes.contains c.ctype = false →
       ("無效的組件類型: " ++ c.ctype) ∈ (validateMCPComponent c).2) ∧
    (∀ c : MCPUIComponent,
       (validateMCPComponent c).1 = true ↔ (validateMCPComponent c).2 = []) := by
  constructor
  · intro c h
    obtain ⟨ty, variant, props, children, actions⟩ := c
    simp only [MCPUIComponent.ctype] at h ⊢
    simp only [validateMCPComponent]
    rw [validateErrors.eq_def]
    simp only [h, Bool.false_eq_true, if_false, List.mem_append,
      List.mem_cons, List.not_mem_nil, or_false]
    exact Or.inl (Or.inl trivial)
  · intro c
    simp [validateMCPComponent, List.length_eq_zero]

/-- Witness for C9 at a concrete component of kind `zzz`. -/
theorem validate_unknown_kind_witness :
    validTypes.contains badKindComponent.ctype = false ∧
    ("無效的組件類型: " ++ badKindComponent.ctype) ∈
      (validateMCPComponent badKindComponent).2 :=
  ⟨by decide,
   validate_unknown_kind_and_valid_iff.1 badKindComponent (by decide)⟩

/-- C10: every component built by `createDataTable` or `createCard` passes
the validator: the factories always set a kind from the closed enumeration,
always supply a props bag, and attach no children, so the validator returns
`valid = true` with an empty error list. -/
theorem factory_components_validate :
    (∀ (cols : List DataTableColumn) (data : List JsObj)
       (opts : Option DataTableOptions),
       validateMCPComponent (createDataTable cols data opts) = (true, [])) ∧
    (∀ (title : String) (content : String ⊕ MCPUIComponent)
       (opts : Option CardOptions),
       validateMCPComponent (createCard title content opts) = (true, [])) := by
  constructor
  · intro cols data opts
    simp only [createDataTable, createMCPComponent, validateMCPComponent]
    rw [validateErrors.eq_def]
    simp [propsPresent, validTypes]
  · intro title content opts
    simp only [createCard, createMCPComponent, validateMCPComponent]
    rw [validateErrors.eq_def]
    simp [propsPresent, validTypes]

end ArtifactsBuilder
